import Mathlib

/-!
Shallow embedding of the deepl-pro translation client (repository
`mirkolenz/deepl-pro`).  The repository contains three near-duplicate
variants of the same ~150-line client:

* `deepl_pro/translator.py`        — namespace `DeeplPro` below;
* `deepl_translator/translator.py` — namespace `DeeplTranslator` below;
* `recap_deepl_pro/translator.py`  — namespace `Recap` below.

Python exceptions are modelled by the `Err` type, JSON response bodies by
`Json`, the request dictionary by an association list with Python dict
update semantics, and the HTTP transport by a function from the attempt
index to a `Response`.  `translate_text` is embedded together with an
event trace recording every HTTP call and every `time.sleep`.
-/

/-- Python exceptions raised by the client, by exception class and message. -/
inductive Err where
  | valueError (msg : String)
  | nameError (msg : String)
  | runtimeError (msg : String)
  | keyError (key : String)
  | indexError
  | typeError (msg : String)
  | attributeError (name : String)
deriving Repr, DecidableEq

/-- JSON values, for the body of an HTTP response (`request.json()`). -/
inductive Json where
  | null
  | bool (b : Bool)
  | num (n : Int)
  | str (s : String)
  | arr (xs : List Json)
  | obj (kvs : List (String × Json))
deriving Repr

/-- An HTTP response: status code plus parsed JSON body. -/
structure Response where
  status : Nat
  body : Json
deriving Repr

/-- The request payload: ordered string-to-string mapping (a Python dict). -/
abbrev Dict := List (String × String)

/-- Python `d[k] = v`: overwrite the value at an existing key in place,
otherwise append the pair at the end. -/
def dictInsert (d : Dict) (k v : String) : Dict :=
  if d.any (fun p => p.1 = k) then d.map (fun p => if p.1 = k then (k, v) else p)
  else d ++ [(k, v)]

/-- Python `d.update(m)` for a mapping `m`, applied pair by pair. -/
def dictUpdate (d : Dict) (kvs : Dict) : Dict :=
  kvs.foldl (fun acc p => dictInsert acc p.1 p.2) d

/-- Python `params.update({s})` where `{s}` is a one-element set of strings.
A set is not a mapping, so `dict.update` iterates it and treats each
element as a key/value sequence: a string of length two contributes the
pair (first char, second char); any other length raises `ValueError`. -/
def updateWithStringElem (d : Dict) (s : String) : Except Err Dict :=
  match s.data with
  | [a, b] => .ok (dictInsert d (String.mk [a]) (String.mk [b]))
  | l =>
      .error (.valueError
        ("dictionary update sequence element #0 has length " ++
          toString l.length ++ "; 2 is required"))

/-- Python subscript `v[key]` with a string key. -/
def pyGetKey (v : Json) (key : String) : Except Err Json :=
  match v with
  | .obj kvs =>
      match kvs.lookup key with
      | some x => .ok x
      | none => .error (.keyError key)
  | .arr _ => .error (.typeError "list indices must be integers or slices, not str")
  | .str _ => .error (.typeError "string indices must be integers")
  | _ => .error (.typeError "object is not subscriptable")

/-- Python subscript `v[i]` with a non-negative integer literal index. -/
def pyGetIdx (v : Json) (i : Nat) : Except Err Json :=
  match v with
  | .arr xs =>
      match xs.get? i with
      | some x => .ok x
      | none => .error .indexError
  | .str s =>
      match s.data.get? i with
      | some c => .ok (.str (String.mk [c]))
      | none => .error .indexError
  | .obj _ => .error (.keyError (toString i))
  | _ => .error (.typeError "object is not subscriptable")

/-- The 200-branch body access `result["translations"][0]["text"]`. -/
def parseFirstTranslation (body : Json) : Except Err Json :=
  match pyGetKey body "translations" with
  | .error e => .error e
  | .ok ts =>
    match pyGetIdx ts 0 with
    | .error e => .error e
    | .ok first => pyGetKey first "text"

/-- Observable side effects of `translate_text`: HTTP POSTs (with the attempt
index and the payload sent) and `time.sleep` waits (in seconds). -/
inductive Event where
  | call (n : Nat) (req : Dict)
  | sleep (seconds : Nat)
deriving Repr, DecidableEq

/-- Whether an event is an HTTP call. -/
def Event.isCall : Event → Bool
  | .call _ _ => true
  | .sleep _ => false

/-- Number of HTTP calls in a trace. -/
def countCalls (evs : List Event) : Nat :=
  (evs.filter Event.isCall).length

/-- Number of sleeps in a trace. -/
def countSleeps (evs : List Event) : Nat :=
  (evs.filter (fun e => !e.isCall)).length

/-- The exception raised by the non-retryable branches of `translate_text`
(all status codes other than 200, 429 and 503), following the `elif` chain of
the source. -/
def classifyImmediate (code : Nat) : Err :=
  if code = 400 then .valueError "Bad request. Please check error message and your parameters."
  else if code = 403 then .valueError "Authorization failed. Please supply a valid auth_key parameter."
  else if code = 404 then .nameError "The requested resource could not be found."
  else if code = 413 then .valueError "The request size exceeds the limit."
  else if code = 456 then .runtimeError "Quota exceeded. The character limit has been reached."
  else .runtimeError "Internal error."

namespace DeeplPro

/-- `Language` enum of `deepl_pro/translator.py` (lowercase wire values). -/
inductive Language where
  | EN | DE | FR | ES | PT | IT | NL | PL | RU
deriving Repr, DecidableEq

/-- Wire-format value of each `Language` member. -/
def Language.value : Language → String
  | .EN => "en" | .DE => "de" | .FR => "fr" | .ES => "es" | .PT => "pt"
  | .IT => "it" | .NL => "nl" | .PL => "pl" | .RU => "ru"

/-- Python `Language(s)`: the member whose value is `s`, if any. -/
def Language.fromString (s : String) : Option Language :=
  if s = "en" then some .EN else if s = "de" then some .DE
  else if s = "fr" then some .FR else if s = "es" then some .ES
  else if s = "pt" then some .PT else if s = "it" then some .IT
  else if s = "nl" then some .NL else if s = "pl" then some .PL
  else if s = "ru" then some .RU else none

/-- `TagHandling` enum of `deepl_pro/translator.py` (members XML and PLAIN). -/
inductive TagHandling where
  | XML | PLAIN
deriving Repr, DecidableEq

/-- Wire-format value of each `TagHandling` member. -/
def TagHandling.value : TagHandling → String
  | .XML => "xml" | .PLAIN => "plain"

/-- Python `TagHandling(s)`. -/
def TagHandling.fromString (s : String) : Option TagHandling :=
  if s = "xml" then some .XML else if s = "plain" then some .PLAIN else none

/-- `SentenceSplitting` enum. -/
inductive SentenceSplitting where
  | NOTHING | INTERPUNCTION | NEWLINES_INTERPUNCTION
deriving Repr, DecidableEq

/-- Wire-format value of each `SentenceSplitting` member. -/
def SentenceSplitting.value : SentenceSplitting → String
  | .NOTHING => "0" | .INTERPUNCTION => "nonewlines" | .NEWLINES_INTERPUNCTION => "1"

/-- `Formatting` enum. -/
inductive Formatting where
  | PRESERVE | DISCARD
deriving Repr, DecidableEq

/-- Wire-format value of each `Formatting` member. -/
def Formatting.value : Formatting → String
  | .PRESERVE => "1" | .DISCARD => "0"

/-- `Outline` enum. -/
inductive Outline where
  | DETECT | IGNORE
deriving Repr, DecidableEq

/-- Wire-format value of each `Outline` member. -/
def Outline.value : Outline → String
  | .DETECT => "1" | .IGNORE => "0"

/-- The `Translator` instance attributes as assigned by `__init__` in
`deepl_pro/translator.py`.  The three tag lists default to `None` in the
signature and are stored unconverted, hence `Option (List String)`. -/
structure Translator where
  auth_key : String
  source_lang : Language
  target_lang : Language
  split_sentences : SentenceSplitting
  preserve_formatting : Formatting
  tag_handling : TagHandling
  outline_detection : Outline
  non_splitting_tags : Option (List String)
  splitting_tags : Option (List String)
  ignore_tags : Option (List String)
  retry_timeout : Nat
  retry_limit : Nat
deriving Repr, DecidableEq

/-- Python truthiness of `self.tag_handling` in `deepl_pro`: the attribute is
always a `TagHandling` enum member, and enum members are always truthy. -/
def truthyTagHandling : TagHandling → Bool := fun _ => true

/-- Python truthiness of a tag-list attribute (`if param:`): `None` and the
empty list are falsy, a non-empty list is truthy. -/
def truthyTags : Option (List String) → Bool
  | none => false
  | some l => !l.isEmpty

/-- One iteration of the tag-list loop of `_build_request`:
`if param: params.update({",".join(param)})`. -/
def applyTagList (d : Dict) (param : Option (List String)) : Except Err Dict :=
  if truthyTags param then updateWithStringElem d (String.intercalate "," (param.getD []))
  else .ok d

/-- The initial `params` dict literal of `_build_request`. -/
def baseParams (cfg : Translator) (text : String) : Dict :=
  [("auth_key", cfg.auth_key),
   ("text", text),
   ("source_lang", cfg.source_lang.value),
   ("target_lang", cfg.target_lang.value),
   ("split_sentences", cfg.split_sentences.value),
   ("preserve_formatting", cfg.preserve_formatting.value)]

/-- `Translator._build_request` of `deepl_pro/translator.py`: the base
params, then (when `self.tag_handling` is truthy) the two tag-mode keys and
the loop over the three tag lists, any raised `ValueError` propagating. -/
def buildRequest (cfg : Translator) (text : String) : Except Err Dict :=
  let params := baseParams cfg text
  if truthyTagHandling cfg.tag_handling then
    let params := dictUpdate params
      [("tag_handling", cfg.tag_handling.value),
       ("outline_detection", cfg.outline_detection.value)]
    match applyTagList params cfg.non_splitting_tags with
    | .error e => .error e
    | .ok params =>
      match applyTagList params cfg.splitting_tags with
      | .error e => .error e
      | .ok params =>
        match applyTagList params cfg.ignore_tags with
        | .error e => .error e
        | .ok params => .ok params
  else .ok params

/-- `Translator.translate_text` of `deepl_pro/translator.py`, unfolded from an
arbitrary recursion depth: `n` is the index of the next HTTP call and
`retries` the value of the `retries` parameter.  The transport `tr` maps the
call index to the HTTP response.  Returns the result (the value of
`result["translations"][0]["text"]` on success, the raised exception on
failure) together with the trace of HTTP calls and sleeps. -/
def translateTextFrom (cfg : Translator) (tr : Nat → Response) (text : String)
    (n retries : Nat) : Except Err Json × List Event :=
  match buildRequest cfg text with
  | .error e => (.error e, [])
  | .ok params =>
    let resp := tr n
    let code := resp.status
    let ev := Event.call n params
    if code = 200 then
      (parseFirstTranslation resp.body, [ev])
    else if code = 400 then
      (.error (.valueError "Bad request. Please check error message and your parameters."), [ev])
    else if code = 403 then
      (.error (.valueError "Authorization failed. Please supply a valid auth_key parameter."), [ev])
    else if code = 404 then
      (.error (.nameError "The requested resource could not be found."), [ev])
    else if code = 413 then
      (.error (.valueError "The request size exceeds the limit."), [ev])
    else if code = 429 ∨ code = 503 then
      if h : retries ≤ cfg.retry_limit then
        let rest := translateTextFrom cfg tr text (n + 1) (retries + 1)
        (rest.1, ev :: Event.sleep cfg.retry_timeout :: rest.2)
      else
        (.error (.runtimeError "Retry limit reached."), [ev])
    else if code = 456 then
      (.error (.runtimeError "Quota exceeded. The character limit has been reached."), [ev])
    else
      (.error (.runtimeError "Internal error."), [ev])
termination_by cfg.retry_limit + 1 - retries
decreasing_by omega

/-- `translate_text(text)` with its default `retries=0`. -/
def translateText (cfg : Translator) (tr : Nat → Response) (text : String) :
    Except Err Json × List Event :=
  translateTextFrom cfg tr text 0 0

/-- The result of one full `translate_text` call on text `t`, with a per-text
transport `tr` (each text's retry sequence is independent). -/
def resultOf (cfg : Translator) (tr : String → Nat → Response) (t : String) :
    Except Err Json :=
  (translateText cfg (tr t) t).1

/-- Sequential branch of `Translator.translate_texts`:
`list(map(self.translate_text, texts))` — evaluate each text in input order
and stop at the first raised exception. -/
def translateTextsSeq (cfg : Translator) (tr : String → Nat → Response) :
    List String → Except Err (List Json)
  | [] => .ok []
  | t :: ts =>
    match resultOf cfg tr t with
    | .error e => .error e
    | .ok v =>
      match translateTextsSeq cfg tr ts with
      | .error e => .error e
      | .ok vs => .ok (v :: vs)

/-- The result produced by the worker assigned input index `i`. -/
def workerResult (cfg : Translator) (tr : String → Nat → Response)
    (texts : List String) (i : Nat) : Except Err Json :=
  resultOf cfg tr (texts.getD i "")

/-- Modelled from the spec: the parallel branch of `translate_texts` delegates
to `multiprocessing.Pool.map`, an external collaborator that is not part of
the repository sources; per the spec, workers run one `translate_text` each,
independently, finishing in an unspecified completion order, and the results
are gathered keyed by original input index so that the output is in input
order.  `order` is the completion order (a permutation of the input indices);
the entry for index `i` is the completed result keyed `i`, if present. -/
def translateTextsPar (cfg : Translator) (tr : String → Nat → Response)
    (texts : List String) (order : List Nat) : List (Option (Except Err Json)) :=
  let completed := order.map (fun j => (j, workerResult cfg tr texts j))
  (List.range texts.length).map (fun i => completed.lookup i)

/-- `to_enum(value, Language)`: the identity on `Language` members, and
`Language(value)` on strings (raising `ValueError` on unknown values). -/
def toEnumLanguage : String ⊕ Language → Except Err Language
  | .inr l => .ok l
  | .inl s =>
    match Language.fromString s with
    | some l => .ok l
    | none => .error (.valueError ("'" ++ s ++ "' is not a valid Language"))

/-- `to_enum(value, TagHandling)`. -/
def toEnumTagHandling : String ⊕ TagHandling → Except Err TagHandling
  | .inr th => .ok th
  | .inl s =>
    match TagHandling.fromString s with
    | some th => .ok th
    | none => .error (.valueError ("'" ++ s ++ "' is not a valid TagHandling"))

/-- `Translator.__init__` of `deepl_pro/translator.py`: `auth_key` is stored
unvalidated; `source_lang`, `target_lang` and `tag_handling` go through
`to_enum`, which raises `ValueError` for strings outside the enum values;
everything else is stored as passed. -/
def mkTranslator (auth_key : String) (source_lang target_lang : String ⊕ Language)
    (split_sentences : SentenceSplitting) (preserve_formatting : Formatting)
    (tag_handling : String ⊕ TagHandling) (outline_detection : Outline)
    (non_splitting_tags splitting_tags ignore_tags : Option (List String))
    (retry_timeout retry_limit : Nat) : Except Err Translator :=
  match toEnumLanguage source_lang with
  | .error e => .error e
  | .ok sl =>
    match toEnumLanguage target_lang with
    | .error e => .error e
    | .ok tl =>
      match toEnumTagHandling tag_handling with
      | .error e => .error e
      | .ok th =>
        .ok { auth_key := auth_key, source_lang := sl, target_lang := tl,
              split_sentences := split_sentences,
              preserve_formatting := preserve_formatting,
              tag_handling := th, outline_detection := outline_detection,
              non_splitting_tags := non_splitting_tags,
              splitting_tags := splitting_tags,
              ignore_tags := ignore_tags, retry_timeout := retry_timeout,
              retry_limit := retry_limit }

end DeeplPro

namespace DeeplTranslator

/-- `Language` enum of `deepl_translator/translator.py` (uppercase values). -/
inductive Language where
  | EN | DE | FR | ES | PT | IT | NL | PL | RU
deriving Repr, DecidableEq

/-- Wire-format value of each `Language` member. -/
def Language.value : Language → String
  | .EN => "EN" | .DE => "DE" | .FR => "FR" | .ES => "ES" | .PT => "PT"
  | .IT => "IT" | .NL => "NL" | .PL => "PL" | .RU => "RU"

/-- `TagHandling` enum of `deepl_translator/translator.py` (only member XML). -/
inductive TagHandling where
  | XML
deriving Repr, DecidableEq

/-- Wire-format value of each `TagHandling` member. -/
def TagHandling.value : TagHandling → String
  | .XML => "xml"

/-- `SentenceSplitting` enum. -/
inductive SentenceSplitting where
  | NOTHING | INTERPUNCTION | NEWLINES_INTERPUNCTION
deriving Repr, DecidableEq

/-- Wire-format value of each `SentenceSplitting` member. -/
def SentenceSplitting.value : SentenceSplitting → String
  | .NOTHING => "0" | .INTERPUNCTION => "nonewlines" | .NEWLINES_INTERPUNCTION => "1"

/-- `Formatting` enum. -/
inductive Formatting where
  | PRESERVE | DISCARD
deriving Repr, DecidableEq

/-- Wire-format value of each `Formatting` member. -/
def Formatting.value : Formatting → String
  | .PRESERVE => "1" | .DISCARD => "0"

/-- `Outline` enum. -/
inductive Outline where
  | DETECT | IGNORE
deriving Repr, DecidableEq

/-- Wire-format value of each `Outline` member. -/
def Outline.value : Outline → String
  | .DETECT => "1" | .IGNORE => "0"

/-- The `Translator` dataclass of `deepl_translator/translator.py`:
`tag_handling: TagHandling = None` is genuinely optional, the tag lists
default to `[]` via `default_factory=list`, and there is no configurable
retry timeout (only `retry_limit`). -/
structure Translator where
  auth_key : String
  source_lang : Language
  target_lang : Language
  split_sentences : SentenceSplitting
  preserve_formatting : Formatting
  tag_handling : Option TagHandling
  outline_detection : Outline
  non_splitting_tags : List String
  splitting_tags : List String
  ignore_tags : List String
  retry_limit : Nat
deriving Repr, DecidableEq

/-- One iteration of the tag-list loop of `_build_request`:
`if param: params.update({",".join(param)})` (here `param` is a list). -/
def applyTagList (d : Dict) (param : List String) : Except Err Dict :=
  if param.isEmpty then .ok d
  else updateWithStringElem d (String.intercalate "," param)

/-- The initial `params` dict literal of `_build_request`. -/
def baseParams (cfg : Translator) (text : String) : Dict :=
  [("auth_key", cfg.auth_key),
   ("text", text),
   ("source_lang", cfg.source_lang.value),
   ("target_lang", cfg.target_lang.value),
   ("split_sentences", cfg.split_sentences.value),
   ("preserve_formatting", cfg.preserve_formatting.value)]

/-- `Translator._build_request` of `deepl_translator/translator.py`.  The
guard `if self.tag_handling:` is falsy exactly when the attribute is `None`
(the only enum member, XML, is truthy). -/
def buildRequest (cfg : Translator) (text : String) : Except Err Dict :=
  let params := baseParams cfg text
  match cfg.tag_handling with
  | none => .ok params
  | some th =>
    let params := dictUpdate params
      [("tag_handling", th.value),
       ("outline_detection", cfg.outline_detection.value)]
    match applyTagList params cfg.non_splitting_tags with
    | .error e => .error e
    | .ok params =>
      match applyTagList params cfg.splitting_tags with
      | .error e => .error e
      | .ok params =>
        match applyTagList params cfg.ignore_tags with
        | .error e => .error e
        | .ok params => .ok params

end DeeplTranslator

namespace Recap

/-- `Language` enum of `recap_deepl_pro/translator.py` (lowercase values). -/
inductive Language where
  | EN | DE | FR | ES | PT | IT | NL | PL | RU
deriving Repr, DecidableEq

/-- Wire-format value of each `Language` member. -/
def Language.value : Language → String
  | .EN => "en" | .DE => "de" | .FR => "fr" | .ES => "es" | .PT => "pt"
  | .IT => "it" | .NL => "nl" | .PL => "pl" | .RU => "ru"

/-- `TagHandling` enum of `recap_deepl_pro/translator.py` (only member XML). -/
inductive TagHandling where
  | XML
deriving Repr, DecidableEq

/-- Wire-format value of each `TagHandling` member. -/
def TagHandling.value : TagHandling → String
  | .XML => "xml"

/-- `SentenceSplitting` enum. -/
inductive SentenceSplitting where
  | NOTHING | INTERPUNCTION | NEWLINES_INTERPUNCTION
deriving Repr, DecidableEq

/-- Wire-format value of each `SentenceSplitting` member. -/
def SentenceSplitting.value : SentenceSplitting → String
  | .NOTHING => "0" | .INTERPUNCTION => "nonewlines" | .NEWLINES_INTERPUNCTION => "1"

/-- `Formatting` enum. -/
inductive Formatting where
  | PRESERVE | DISCARD
deriving Repr, DecidableEq

/-- Wire-format value of each `Formatting` member. -/
def Formatting.value : Formatting → String
  | .PRESERVE => "1" | .DISCARD => "0"

/-- `Outline` enum. -/
inductive Outline where
  | DETECT | IGNORE
deriving Repr, DecidableEq

/-- Wire-format value of each `Outline` member. -/
def Outline.value : Outline → String
  | .DETECT => "1" | .IGNORE => "0"

/-- The `Translator` dataclass of `recap_deepl_pro/translator.py`.  Its
declared fields are `auth_key`, `source_lang`, `target_lang`,
`split_sentences`, `preserve_formatting`, `tag_handling`,
`outline_detection`, `non_splitting_tags`, `splitting_tags`, `ignore_tags`,
`retry_timeout` and `retry_limit` — there is no field named `timeout`. -/
structure Translator where
  auth_key : String
  source_lang : Language
  target_lang : Language
  split_sentences : SentenceSplitting
  preserve_formatting : Formatting
  tag_handling : Option TagHandling
  outline_detection : Outline
  non_splitting_tags : List String
  splitting_tags : List String
  ignore_tags : List String
  retry_timeout : Nat
  retry_limit : Nat
deriving Repr, DecidableEq

/-- Python attribute lookup `getattr(self, name)` for the integer-valued
attributes of the recap `Translator`, per its dataclass field list above:
any other name raises `AttributeError`. -/
def Translator.natAttr (cfg : Translator) (name : String) : Except Err Nat :=
  if name = "retry_timeout" then .ok cfg.retry_timeout
  else if name = "retry_limit" then .ok cfg.retry_limit
  else .error (.attributeError name)

/-- One iteration of the tag-list loop of `_build_request`. -/
def applyTagList (d : Dict) (param : List String) : Except Err Dict :=
  if param.isEmpty then .ok d
  else updateWithStringElem d (String.intercalate "," param)

/-- The initial `params` dict literal of `_build_request`. -/
def baseParams (cfg : Translator) (text : String) : Dict :=
  [("auth_key", cfg.auth_key),
   ("text", text),
   ("source_lang", cfg.source_lang.value),
   ("target_lang", cfg.target_lang.value),
   ("split_sentences", cfg.split_sentences.value),
   ("preserve_formatting", cfg.preserve_formatting.value)]

/-- `Translator._build_request` of `recap_deepl_pro/translator.py`. -/
def buildRequest (cfg : Translator) (text : String) : Except Err Dict :=
  let params := baseParams cfg text
  match cfg.tag_handling with
  | none => .ok params
  | some th =>
    let params := dictUpdate params
      [("tag_handling", th.value),
       ("outline_detection", cfg.outline_detection.value)]
    match applyTagList params cfg.non_splitting_tags with
    | .error e => .error e
    | .ok params =>
      match applyTagList params cfg.splitting_tags with
      | .error e => .error e
      | .ok params =>
        match applyTagList params cfg.ignore_tags with
        | .error e => .error e
        | .ok params => .ok params

/-- `Translator.translate_text` of `recap_deepl_pro/translator.py`.  In the
retryable branch the code evaluates `self.timeout` (in the log f-string and
in `time.sleep(self.timeout)`); the dataclass declares `retry_timeout` but no
`timeout` attribute, so this attribute access is `Translator.natAttr cfg
"timeout"` and the raised `AttributeError` propagates before any sleep. -/
def translateTextFrom (cfg : Translator) (tr : Nat → Response) (text : String)
    (n retries : Nat) : Except Err Json × List Event :=
  match buildRequest cfg text with
  | .error e => (.error e, [])
  | .ok params =>
    let resp := tr n
    let code := resp.status
    let ev := Event.call n params
    if code = 200 then
      (parseFirstTranslation resp.body, [ev])
    else if code = 400 then
      (.error (.valueError "Bad request. Please check error message and your parameters."), [ev])
    else if code = 403 then
      (.error (.valueError "Authorization failed. Please supply a valid auth_key parameter."), [ev])
    else if code = 404 then
      (.error (.nameError "The requested resource could not be found."), [ev])
    else if code = 413 then
      (.error (.valueError "The request size exceeds the limit."), [ev])
    else if code = 429 ∨ code = 503 then
      if _h : retries ≤ cfg.retry_limit then
        match cfg.natAttr "timeout" with
        | .error e => (.error e, [ev])
        | .ok t =>
          let rest := translateTextFrom cfg tr text (n + 1) (retries + 1)
          (rest.1, ev :: Event.sleep t :: rest.2)
      else
        (.error (.runtimeError "Retry limit reached."), [ev])
    else if code = 456 then
      (.error (.runtimeError "Quota exceeded. The character limit has been reached."), [ev])
    else
      (.error (.runtimeError "Internal error."), [ev])
termination_by cfg.retry_limit + 1 - retries
decreasing_by omega

/-- `translate_text(text)` with its default `retries=0`. -/
def translateText (cfg : Translator) (tr : Nat → Response) (text : String) :
    Except Err Json × List Event :=
  translateTextFrom cfg tr text 0 0

end Recap

/-! ### Helper lemmas: one-step unfoldings of the translate loop -/

namespace DeeplPro

theorem translateTextFrom_200 (cfg : Translator) (tr : Nat → Response)
    (text : String) (req : Dict) (n retries : Nat)
    (hb : buildRequest cfg text = .ok req) (hs : (tr n).status = 200) :
    translateTextFrom cfg tr text n retries =
      (parseFirstTranslation (tr n).body, [Event.call n req]) := by
  rw [translateTextFrom]
  simp [hb, hs]

theorem translateTextFrom_immediate (cfg : Translator) (tr : Nat → Response)
    (text : String) (req : Dict) (n retries : Nat)
    (hb : buildRequest cfg text = .ok req)
    (h200 : (tr n).status ≠ 200) (h429 : (tr n).status ≠ 429)
    (h503 : (tr n).status ≠ 503) :
    translateTextFrom cfg tr text n retries =
      (.error (classifyImmediate (tr n).status), [Event.call n req]) := by
  rw [translateTextFrom]
  simp only [hb, classifyImmediate]
  split_ifs <;> simp_all

theorem translateTextFrom_retry_step (cfg : Translator) (tr : Nat → Response)
    (text : String) (req : Dict) (n retries : Nat)
    (hb : buildRequest cfg text = .ok req)
    (hs : (tr n).status = 429 ∨ (tr n).status = 503) :
    translateTextFrom cfg tr text n retries =
      if retries ≤ cfg.retry_limit then
        ((translateTextFrom cfg tr text (n + 1) (retries + 1)).1,
          Event.call n req :: Event.sleep cfg.retry_timeout ::
            (translateTextFrom cfg tr text (n + 1) (retries + 1)).2)
      else (.error (.runtimeError "Retry limit reached."), [Event.call n req]) := by
  rcases hs with h | h <;>
    (rw [translateTextFrom]; simp [hb, h])

theorem retry_exhaustion_from (cfg : Translator) (tr : Nat → Response)
    (text : String) (req : Dict)
    (hb : buildRequest cfg text = .ok req)
    (hr : ∀ n, (tr n).status = 429 ∨ (tr n).status = 503) :
    ∀ k n retries, cfg.retry_limit + 1 - retries = k →
      (translateTextFrom cfg tr text n retries).1 =
        .error (.runtimeError "Retry limit reached.") ∧
      countCalls (translateTextFrom cfg tr text n retries).2 = k + 1 ∧
      countSleeps (translateTextFrom cfg tr text n retries).2 = k := by
  intro k
  induction k with
  | zero =>
    intro n retries hk
    rw [translateTextFrom_retry_step cfg tr text req n retries hb (hr n),
      if_neg (by omega)]
    simp [countCalls, countSleeps, Event.isCall]
  | succ k ih =>
    intro n retries hk
    obtain ⟨ih1, ih2, ih3⟩ := ih (n + 1) (retries + 1) (by omega)
    rw [translateTextFrom_retry_step cfg tr text req n retries hb (hr n),
      if_pos (by omega)]
    refine ⟨ih1, ?_, ?_⟩ <;>
      simp [countCalls, countSleeps, Event.isCall, List.filter] at ih2 ih3 ⊢ <;>
      omega

end DeeplPro

/-! ### Helper lemmas: batch translation, dict lookups, pool recombination -/

namespace DeeplPro

/-- Value of a successful result (`Json.null` as the dummy on errors). -/
def getOk : Except Err Json → Json
  | .ok v => v
  | .error _ => .null

theorem ok_getOk {e : Except Err Json} (h : e.isOk = true) : Except.ok (getOk e) = e := by
  cases e with
  | ok v => rfl
  | error _ => simp [Except.isOk, Except.toBool] at h

theorem seq_ok_of_all_ok (cfg : Translator) (tr : String → Nat → Response) :
    ∀ texts : List String, (∀ t ∈ texts, (resultOf cfg tr t).isOk = true) →
      translateTextsSeq cfg tr texts =
        .ok (texts.map (fun t => getOk (resultOf cfg tr t))) := by
  intro texts
  induction texts with
  | nil => intro; rfl
  | cons t ts ih =>
    intro h
    have ht : (resultOf cfg tr t).isOk = true := h t (List.mem_cons_self t ts)
    have hts := ih (fun u hu => h u (List.mem_cons_of_mem t hu))
    rw [translateTextsSeq, ← ok_getOk ht, hts]
    rfl

theorem seq_error_first (cfg : Translator) (tr : String → Nat → Response) :
    ∀ (pre : List String) (t : String) (post : List String) (e : Err),
      (∀ u ∈ pre, (resultOf cfg tr u).isOk = true) →
      resultOf cfg tr t = .error e →
      translateTextsSeq cfg tr (pre ++ t :: post) = .error e := by
  intro pre
  induction pre with
  | nil =>
    intro t post e _ ht
    rw [List.nil_append, translateTextsSeq, ht]
  | cons u us ih =>
    intro t post e hpre ht
    have hu : (resultOf cfg tr u).isOk = true := hpre u (List.mem_cons_self u us)
    have hrest := ih t post e (fun v hv => hpre v (List.mem_cons_of_mem u hv)) ht
    rw [List.cons_append, translateTextsSeq, ← ok_getOk hu, hrest]

theorem seq_ok_inv (cfg : Translator) (tr : String → Nat → Response) :
    ∀ (texts : List String) (l : List Json),
      translateTextsSeq cfg tr texts = .ok l →
      (∀ t ∈ texts, (resultOf cfg tr t).isOk = true) ∧
        l = texts.map (fun t => getOk (resultOf cfg tr t)) := by
  intro texts
  induction texts with
  | nil =>
    intro l h
    rw [translateTextsSeq] at h
    cases h
    exact ⟨by simp, rfl⟩
  | cons t ts ih =>
    intro l h
    rw [translateTextsSeq] at h
    cases hr : resultOf cfg tr t with
    | error e => rw [hr] at h; exact absurd h (by simp)
    | ok v =>
      rw [hr] at h
      cases hs : translateTextsSeq cfg tr ts with
      | error e => rw [hs] at h; exact absurd h (by simp)
      | ok vs =>
        rw [hs] at h
        obtain ⟨hall, hl⟩ := ih vs hs
        have hlv : l = v :: vs := by cases h; rfl
        refine ⟨?_, ?_⟩
        · intro u hu
          rcases List.mem_cons.mp hu with h' | h'
          · rw [h', hr]; rfl
          · exact hall u h'
        · rw [hlv, hl, List.map_cons, hr]
          rfl

end DeeplPro

theorem lookup_map_pair {α : Type} (g : Nat → α) :
    ∀ (order : List Nat) (i : Nat), i ∈ order →
      (order.map (fun j => (j, g j))).lookup i = some (g i) := by
  intro order
  induction order with
  | nil => intro i h; exact absurd h (List.not_mem_nil i)
  | cons j js ih =>
    intro i h
    by_cases hij : i = j
    · subst hij
      simp [List.lookup]
    · rcases List.mem_cons.mp h with h' | h'
      · exact absurd h' hij
      · have hb : (i == j) = false := by simpa using hij
        simp only [List.map_cons, List.lookup, hb]
        exact ih i h'

theorem range_map_getD {β : Type} (f : String → β) :
    ∀ texts : List String,
      (List.range texts.length).map (fun i => f (texts.getD i "")) = texts.map f := by
  intro texts
  induction texts with
  | nil => rfl
  | cons t ts ih =>
    rw [List.length_cons, List.range_succ_eq_map, List.map_cons, List.map_map]
    have hcomp : ((fun i => f ((t :: ts).getD i "")) ∘ Nat.succ) =
        (fun i => f (ts.getD i "")) := by
      funext i
      rfl
    rw [hcomp, ih]
    rfl

theorem lookup_dictInsert_ne (k kk v : String) (hk : k ≠ kk) :
    ∀ d : Dict, (dictInsert d kk v).lookup k = d.lookup k := by
  have hkne : (k == kk) = false := by simpa using hk
  have hmap : ∀ d : Dict,
      (d.map (fun p => if p.1 = kk then (kk, v) else p)).lookup k = d.lookup k := by
    intro d
    induction d with
    | nil => rfl
    | cons p ps ih =>
      by_cases hp : p.1 = kk
      · rw [List.map_cons,
          show (if p.1 = kk then (kk, v) else p) = (kk, v) from if_pos hp]
        simp only [List.lookup, hkne]
        rw [show (k == p.1) = false from by rw [hp]; exact hkne]
        exact ih
      · rw [List.map_cons,
          show (if p.1 = kk then (kk, v) else p) = p from if_neg hp]
        simp only [List.lookup]
        cases hkp : k == p.1 with
        | true => rfl
        | false => exact ih
  have happ : ∀ d : Dict, (d ++ [(kk, v)]).lookup k = d.lookup k := by
    intro d
    induction d with
    | nil => simp [List.lookup, hkne]
    | cons p ps ih =>
      simp only [List.cons_append, List.lookup]
      cases hkp : k == p.1 with
      | true => rfl
      | false => exact ih
  intro d
  unfold dictInsert
  split
  · exact hmap d
  · exact happ d

theorem updateWithStringElem_lookup {d d' : Dict} {s k : String}
    (h : updateWithStringElem d s = .ok d') (hk : 1 < k.length) :
    d'.lookup k = d.lookup k := by
  unfold updateWithStringElem at h
  cases hs : s.data with
  | nil => rw [hs] at h; exact absurd h (by simp)
  | cons a l =>
    cases l with
    | nil =>
      rw [hs] at h
      exact absurd h (by simp)
    | cons b l' =>
      cases l' with
      | nil =>
        rw [hs] at h
        have hd' : d' = dictInsert d (String.mk [a]) (String.mk [b]) := by
          cases h; rfl
        have hne : k ≠ String.mk [a] := by
          intro hkk
          rw [hkk] at hk
          simp [String.length] at hk
        rw [hd', lookup_dictInsert_ne k (String.mk [a]) (String.mk [b]) hne d]
      | cons c l'' => rw [hs] at h; exact absurd h (by simp)

namespace Recap

theorem translateTextFrom_retryable (cfg : Translator) (tr : Nat → Response)
    (text : String) (req : Dict) (n retries : Nat)
    (hb : buildRequest cfg text = .ok req)
    (hs : (tr n).status = 429 ∨ (tr n).status = 503)
    (hret : retries ≤ cfg.retry_limit) :
    translateTextFrom cfg tr text n retries =
      (.error (.attributeError "timeout"), [Event.call n req]) := by
  rcases hs with h | h <;>
    (rw [translateTextFrom]; simp [hb, h, hret, Translator.natAttr])

end Recap

theorem applyTagList_lookup_translator {d d' : Dict} {param : List String}
    {k : String} (h : DeeplTranslator.applyTagList d param = .ok d')
    (hk : 1 < k.length) : d'.lookup k = d.lookup k := by
  unfold DeeplTranslator.applyTagList at h
  split at h
  · cases h; rfl
  · exact updateWithStringElem_lookup h hk

/-! ### Claim theorems -/

/-- Concrete deepl_pro configuration for the structured-markup scenario of
the claim: tag handling set to XML and `ignore_tags=["b"]`, the other two
tag lists unset. -/
def tagCfg : DeeplPro.Translator :=
  { auth_key := "key", source_lang := .EN, target_lang := .DE,
    split_sentences := .NEWLINES_INTERPUNCTION, preserve_formatting := .DISCARD,
    tag_handling := .XML, outline_detection := .DETECT,
    non_splitting_tags := none, splitting_tags := none, ignore_tags := some ["b"],
    retry_timeout := 2, retry_limit := 7 }

/-- C1: the claim states that with tag handling set and `ignoreTags=["b"]`
the built request maps the ignore-tags key to "b" and contains no other
tag-list keys.  The code instead executes `params.update({",".join(param)})`,
passing a one-element set to `dict.update`: with `ignore_tags=["b"]` the
joined string "b" has length 1 and `_build_request` raises `ValueError`, so
no request is produced; with a two-character joined string
(`ignore_tags=["ab"]`) a request is produced but the added entry is the
garbage pair ("a","b"), not any ignore-tags key. -/
theorem c1_tag_list_update_malformed :
    DeeplPro.buildRequest tagCfg "Hello" =
      .error (.valueError
        "dictionary update sequence element #0 has length 1; 2 is required") ∧
    DeeplPro.buildRequest { tagCfg with ignore_tags := some ["ab"] } "Hello" =
      .ok [("auth_key", "key"), ("text", "Hello"), ("source_lang", "en"),
        ("target_lang", "de"), ("split_sentences", "1"),
        ("preserve_formatting", "0"), ("tag_handling", "xml"),
        ("outline_detection", "1"), ("a", "b")] :=
  ⟨rfl, rfl⟩

/-- Plain deepl_pro configuration (no tag lists) with a retry budget of 0. -/
def retryCfg0 : DeeplPro.Translator :=
  { auth_key := "key", source_lang := .EN, target_lang := .DE,
    split_sentences := .NEWLINES_INTERPUNCTION, preserve_formatting := .DISCARD,
    tag_handling := .PLAIN, outline_detection := .DETECT,
    non_splitting_tags := none, splitting_tags := none, ignore_tags := none,
    retry_timeout := 2, retry_limit := 0 }

/-- The request `_build_request` produces for `retryCfg0` and text "Hello". -/
def retryReq0 : Dict :=
  [("auth_key", "key"), ("text", "Hello"), ("source_lang", "en"),
   ("target_lang", "de"), ("split_sentences", "1"), ("preserve_formatting", "0"),
   ("tag_handling", "plain"), ("outline_detection", "1")]

/-- A transport that answers 429 on every attempt. -/
def always429 : Nat → Response := fun _ => { status := 429, body := .null }

/-- C2 counterexample: with retryLimit = 0 and a transport answering 429 on
every attempt, `translate_text` performs 2 HTTP calls, not
retryLimit + 1 = 1: the guard `retries <= self.retry_limit` admits one more
retry than the claim states. -/
theorem c2_total_calls_counterexample :
    countCalls (DeeplPro.translateText retryCfg0 always429 "Hello").2 = 2 ∧
    ¬ countCalls (DeeplPro.translateText retryCfg0 always429 "Hello").2 =
        retryCfg0.retry_limit + 1 := by
  have h := DeeplPro.retry_exhaustion_from retryCfg0 always429 "Hello" retryReq0
    rfl (fun _ => Or.inl rfl) (retryCfg0.retry_limit + 1) 0 0 (by omega)
  have hc : countCalls (DeeplPro.translateText retryCfg0 always429 "Hello").2 = 2 := by
    simpa [DeeplPro.translateText, retryCfg0] using h.2.1
  exact ⟨hc, by rw [hc]; decide⟩

/-- C2 (amended): with retryLimit = n and a transport answering 429 or 503
on every attempt, `translate_text` makes exactly n + 1 additional attempts
after the first call — total HTTP call count n + 2, with n + 1 sleeps in
between — and then fails with RuntimeError "Retry limit reached.". -/
theorem c2_retry_exhaustion (cfg : DeeplPro.Translator) (tr : Nat → Response)
    (text : String) (req : Dict)
    (hb : DeeplPro.buildRequest cfg text = .ok req)
    (hr : ∀ n, (tr n).status = 429 ∨ (tr n).status = 503) :
    (DeeplPro.translateText cfg tr text).1 =
      .error (.runtimeError "Retry limit reached.") ∧
    countCalls (DeeplPro.translateText cfg tr text).2 = cfg.retry_limit + 2 ∧
    countSleeps (DeeplPro.translateText cfg tr text).2 = cfg.retry_limit + 1 := by
  have h := DeeplPro.retry_exhaustion_from cfg tr text req hb hr
    (cfg.retry_limit + 1) 0 0 (by omega)
  simpa [DeeplPro.translateText] using h

/-- Witness for C2 (amended) at the concrete configuration `retryCfg0`. -/
theorem c2_retry_exhaustion_witness :
    DeeplPro.buildRequest retryCfg0 "Hello" = .ok retryReq0 ∧
    (∀ n, (always429 n).status = 429 ∨ (always429 n).status = 503) ∧
    ((DeeplPro.translateText retryCfg0 always429 "Hello").1 =
        .error (.runtimeError "Retry limit reached.") ∧
      countCalls (DeeplPro.translateText retryCfg0 always429 "Hello").2 =
        retryCfg0.retry_limit + 2 ∧
      countSleeps (DeeplPro.translateText retryCfg0 always429 "Hello").2 =
        retryCfg0.retry_limit + 1) :=
  ⟨rfl, fun _ => Or.inl rfl,
    c2_retry_exhaustion retryCfg0 always429 "Hello" retryReq0 rfl
      (fun _ => Or.inl rfl)⟩

/-- Default recap_deepl_pro configuration (tag handling unset). -/
def recapCfg : Recap.Translator :=
  { auth_key := "key", source_lang := .EN, target_lang := .DE,
    split_sentences := .NEWLINES_INTERPUNCTION, preserve_formatting := .DISCARD,
    tag_handling := none, outline_detection := .DETECT,
    non_splitting_tags := [], splitting_tags := [], ignore_tags := [],
    retry_timeout := 2, retry_limit := 7 }

/-- The request recap's `_build_request` produces for `recapCfg`, "Hello". -/
def recapReq : Dict :=
  [("auth_key", "key"), ("text", "Hello"), ("source_lang", "en"),
   ("target_lang", "de"), ("split_sentences", "1"), ("preserve_formatting", "0")]

/-- C3: the claim says that on a retryable response (429/503) within the
retry limit the client waits exactly the configured retry-timeout seconds
and then retries with the same request.  In `recap_deepl_pro` the retry
branch reads `self.timeout` — an attribute the Translator dataclass does not
declare (its field is `retry_timeout`) — so with `retry_timeout = 2` and a
first response of 429 the call raises `AttributeError` after a single HTTP
call: no sleep happens and no retry is attempted. -/
theorem c3_recap_sleep_attribute_error :
    Recap.translateText recapCfg always429 "Hello" =
      (.error (.attributeError "timeout"), [Event.call 0 recapReq]) ∧
    recapCfg.natAttr "timeout" = .error (.attributeError "timeout") ∧
    recapCfg.retry_timeout = 2 := by
  refine ⟨?_, rfl, rfl⟩
  have h := Recap.translateTextFrom_retryable recapCfg always429 "Hello" recapReq
    0 0 rfl (Or.inl rfl) (by omega)
  simpa [Recap.translateText] using h

/-- C4: for every deepl_translator configuration from which `_build_request`
returns a request, the request contains the `tag_handling` and
`outline_detection` keys exactly when the configuration's `tag_handling`
option is set; when it is None (plain-text mode) neither key is present. -/
theorem c4_tag_keys_iff_tag_handling (cfg : DeeplTranslator.Translator)
    (text : String) (req : Dict)
    (hb : DeeplTranslator.buildRequest cfg text = .ok req) :
    ((req.lookup "tag_handling").isSome = cfg.tag_handling.isSome) ∧
    ((req.lookup "outline_detection").isSome = cfg.tag_handling.isSome) := by
  cases htag : cfg.tag_handling with
  | none =>
    simp only [DeeplTranslator.buildRequest, htag] at hb
    cases hb
    constructor <;> rfl
  | some th =>
    simp only [DeeplTranslator.buildRequest, htag] at hb
    set params1 := dictUpdate (DeeplTranslator.baseParams cfg text)
      [("tag_handling", th.value),
       ("outline_detection", cfg.outline_detection.value)] with hparams1
    split at hb
    next e h1 => exact absurd hb (by simp)
    next p1 h1 =>
      split at hb
      next e h2 => exact absurd hb (by simp)
      next p2 h2 =>
        split at hb
        next e h3 => exact absurd hb (by simp)
        next p3 h3 =>
          cases hb
          have e1 : List.lookup "tag_handling" params1 = some th.value := rfl
          have e2 : List.lookup "outline_detection" params1 =
              some cfg.outline_detection.value := rfl
          have l1t := applyTagList_lookup_translator h1
            (show 1 < "tag_handling".length by decide)
          have l2t := applyTagList_lookup_translator h2
            (show 1 < "tag_handling".length by decide)
          have l3t := applyTagList_lookup_translator h3
            (show 1 < "tag_handling".length by decide)
          have l1o := applyTagList_lookup_translator h1
            (show 1 < "outline_detection".length by decide)
          have l2o := applyTagList_lookup_translator h2
            (show 1 < "outline_detection".length by decide)
          have l3o := applyTagList_lookup_translator h3
            (show 1 < "outline_detection".length by decide)
          constructor
          · rw [l3t, l2t, l1t, e1]; rfl
          · rw [l3o, l2o, l1o, e2]; rfl

/-- Concrete deepl_translator configuration with tag handling set to XML
(and one with it unset is obtained by overriding the field). -/
def dtCfgXml : DeeplTranslator.Translator :=
  { auth_key := "key", source_lang := .EN, target_lang := .DE,
    split_sentences := .NEWLINES_INTERPUNCTION, preserve_formatting := .DISCARD,
    tag_handling := some .XML, outline_detection := .DETECT,
    non_splitting_tags := [], splitting_tags := [], ignore_tags := [],
    retry_limit := 5 }

/-- Witness for C4 at the concrete configuration `dtCfgXml` ("Hello"). -/
theorem c4_tag_keys_iff_tag_handling_witness :
    DeeplTranslator.buildRequest dtCfgXml "Hello" =
      .ok [("auth_key", "key"), ("text", "Hello"), ("source_lang", "EN"),
        ("target_lang", "DE"), ("split_sentences", "1"),
        ("preserve_formatting", "0"), ("tag_handling", "xml"),
        ("outline_detection", "1")] ∧
    ((([("auth_key", "key"), ("text", "Hello"), ("source_lang", "EN"),
        ("target_lang", "DE"), ("split_sentences", "1"),
        ("preserve_formatting", "0"), ("tag_handling", "xml"),
        ("outline_detection", "1")] : Dict).lookup "tag_handling").isSome =
          dtCfgXml.tag_handling.isSome ∧
      (([("auth_key", "key"), ("text", "Hello"), ("source_lang", "EN"),
        ("target_lang", "DE"), ("split_sentences", "1"),
        ("preserve_formatting", "0"), ("tag_handling", "xml"),
        ("outline_detection", "1")] : Dict).lookup
          "outline_detection").isSome = dtCfgXml.tag_handling.isSome) :=
  ⟨rfl, c4_tag_keys_iff_tag_handling dtCfgXml "Hello" _ rfl⟩

/-- C5: for every configuration whose request builds, and every transport
whose first response status is neither 200 nor one of the retryable codes
429/503, `translate_text` raises the typed error of the `elif` chain
(`classifyImmediate`) after exactly one HTTP call, with no sleep and no
second call: the trace is the single call event. -/
theorem c5_immediate_failure (cfg : DeeplPro.Translator) (tr : Nat → Response)
    (text : String) (req : Dict)
    (hb : DeeplPro.buildRequest cfg text = .ok req)
    (h200 : (tr 0).status ≠ 200) (h429 : (tr 0).status ≠ 429)
    (h503 : (tr 0).status ≠ 503) :
    DeeplPro.translateText cfg tr text =
      (.error (classifyImmediate (tr 0).status), [Event.call 0 req]) ∧
    countCalls (DeeplPro.translateText cfg tr text).2 = 1 ∧
    countSleeps (DeeplPro.translateText cfg tr text).2 = 0 := by
  have h := DeeplPro.translateTextFrom_immediate cfg tr text req 0 0 hb h200 h429 h503
  refine ⟨by simpa [DeeplPro.translateText] using h, ?_, ?_⟩ <;>
    simp [DeeplPro.translateText, h, countCalls, countSleeps, Event.isCall]

/-- A transport that answers 456 (quota exceeded) on every attempt. -/
def always456 : Nat → Response := fun _ => { status := 456, body := .null }

/-- Witness for C5 at `retryCfg0` and a transport answering 456. -/
theorem c5_immediate_failure_witness :
    DeeplPro.buildRequest retryCfg0 "Hello" = .ok retryReq0 ∧
    (always456 0).status ≠ 200 ∧ (always456 0).status ≠ 429 ∧
    (always456 0).status ≠ 503 ∧
    (DeeplPro.translateText retryCfg0 always456 "Hello" =
        (.error (classifyImmediate (always456 0).status),
          [Event.call 0 retryReq0]) ∧
      countCalls (DeeplPro.translateText retryCfg0 always456 "Hello").2 = 1 ∧
      countSleeps (DeeplPro.translateText retryCfg0 always456 "Hello").2 = 0) :=
  ⟨rfl, by decide, by decide, by decide,
    c5_immediate_failure retryCfg0 always456 "Hello" retryReq0 rfl
      (by decide) (by decide) (by decide)⟩

/-- C6: for every configuration whose request builds and every transport
whose first response has status 200, `translate_text` returns the value of
`result["translations"][0]["text"]` applied to the response body after
exactly one HTTP call — on a well-formed body (an object whose
"translations" key holds a non-empty array whose first element is an object
with a "text" key) that is exactly the first translation's text field, and
on a body lacking that structure the raised parsing exception propagates
immediately, with no sleep and no retry. -/
theorem c6_success_returns_first_translation (cfg : DeeplPro.Translator)
    (tr : Nat → Response) (text : String) (req : Dict)
    (hb : DeeplPro.buildRequest cfg text = .ok req)
    (h200 : (tr 0).status = 200) :
    DeeplPro.translateText cfg tr text =
      (parseFirstTranslation (tr 0).body, [Event.call 0 req]) ∧
    (∀ (kvs kvs2 : List (String × Json)) (rest : List Json) (v : Json),
      kvs.lookup "translations" = some (.arr (Json.obj kvs2 :: rest)) →
      kvs2.lookup "text" = some v →
      parseFirstTranslation (.obj kvs) = .ok v) := by
  constructor
  · have h := DeeplPro.translateTextFrom_200 cfg tr text req 0 0 hb h200
    simpa [DeeplPro.translateText] using h
  · intro kvs kvs2 rest v h1 h2
    simp [parseFirstTranslation, pyGetKey, pyGetIdx, h1, h2]

/-- A transport answering 200 with body
`{"translations": [{"text": "Hallo"}]}` on every attempt. -/
def okTransport : Nat → Response := fun _ =>
  { status := 200,
    body := .obj [("translations", .arr [.obj [("text", .str "Hallo")]])] }

/-- Witness for C6 at `retryCfg0` and `okTransport`. -/
theorem c6_success_returns_first_translation_witness :
    DeeplPro.buildRequest retryCfg0 "Hello" = .ok retryReq0 ∧
    (okTransport 0).status = 200 ∧
    (DeeplPro.translateText retryCfg0 okTransport "Hello" =
        (parseFirstTranslation (okTransport 0).body,
          [Event.call 0 retryReq0]) ∧
      (∀ (kvs kvs2 : List (String × Json)) (rest : List Json) (v : Json),
        kvs.lookup "translations" = some (.arr (Json.obj kvs2 :: rest)) →
        kvs2.lookup "text" = some v →
        parseFirstTranslation (.obj kvs) = .ok v)) ∧
    parseFirstTranslation (okTransport 0).body = .ok (.str "Hallo") :=
  ⟨rfl, rfl,
    c6_success_returns_first_translation retryCfg0 okTransport "Hello" retryReq0
      rfl rfl, rfl⟩

/-- The deepl_pro Translator value produced from an empty credential. -/
def emptyKeyCfg : DeeplPro.Translator :=
  { auth_key := "", source_lang := .EN, target_lang := .DE,
    split_sentences := .NEWLINES_INTERPUNCTION, preserve_formatting := .DISCARD,
    tag_handling := .PLAIN, outline_detection := .DETECT,
    non_splitting_tags := none, splitting_tags := none, ignore_tags := none,
    retry_timeout := 2, retry_limit := 7 }

/-- C7 counterexample: the claim says an empty credential string fails at
construction, but `__init__` stores `auth_key` without any validation:
construction with the empty credential succeeds and stores it. -/
theorem c7_empty_credential_accepted :
    DeeplPro.mkTranslator "" (.inr .EN) (.inr .DE) .NEWLINES_INTERPUNCTION
      .DISCARD (.inr .PLAIN) .DETECT none none none 2 7 = .ok emptyKeyCfg ∧
    emptyKeyCfg.auth_key = "" :=
  ⟨rfl, rfl⟩

/-- C7 (amended): a source- or target-language string outside the supported
set fails at construction with `ValueError` (raised by `to_enum` before any
translate call), but the credential is never validated: every credential
string, the empty string included, is accepted at construction. -/
theorem c7_construction_validation (s : String)
    (hs : DeeplPro.Language.fromString s = none) :
    (∀ (auth : String) (tgt : String ⊕ DeeplPro.Language)
       (sp : DeeplPro.SentenceSplitting) (pf : DeeplPro.Formatting)
       (th : String ⊕ DeeplPro.TagHandling) (od : DeeplPro.Outline)
       (a b c : Option (List String)) (rt rl : Nat),
      DeeplPro.mkTranslator auth (.inl s) tgt sp pf th od a b c rt rl =
        .error (.valueError ("'" ++ s ++ "' is not a valid Language"))) ∧
    (∀ (auth : String) (src : DeeplPro.Language)
       (sp : DeeplPro.SentenceSplitting) (pf : DeeplPro.Formatting)
       (th : String ⊕ DeeplPro.TagHandling) (od : DeeplPro.Outline)
       (a b c : Option (List String)) (rt rl : Nat),
      DeeplPro.mkTranslator auth (.inr src) (.inl s) sp pf th od a b c rt rl =
        .error (.valueError ("'" ++ s ++ "' is not a valid Language"))) ∧
    (∀ (l1 l2 : DeeplPro.Language) (sp : DeeplPro.SentenceSplitting)
       (pf : DeeplPro.Formatting) (th : DeeplPro.TagHandling)
       (od : DeeplPro.Outline) (a b c : Option (List String)) (rt rl : Nat),
      DeeplPro.mkTranslator "" (.inr l1) (.inr l2) sp pf (.inr th) od a b c
          rt rl =
        .ok { auth_key := "", source_lang := l1, target_lang := l2,
              split_sentences := sp, preserve_formatting := pf,
              tag_handling := th, outline_detection := od,
              non_splitting_tags := a, splitting_tags := b, ignore_tags := c,
              retry_timeout := rt, retry_limit := rl }) := by
  refine ⟨?_, ?_, ?_⟩
  · intro auth tgt sp pf th od a b c rt rl
    simp [DeeplPro.mkTranslator, DeeplPro.toEnumLanguage, hs]
  · intro auth src sp pf th od a b c rt rl
    simp [DeeplPro.mkTranslator, DeeplPro.toEnumLanguage, hs]
  · intro l1 l2 sp pf th od a b c rt rl
    rfl

/-- Witness for C7 (amended) at the unsupported language string "xx". -/
theorem c7_construction_validation_witness :
    DeeplPro.Language.fromString "xx" = none ∧
    DeeplPro.mkTranslator "key" (.inl "xx") (.inr .DE) .NEWLINES_INTERPUNCTION
        .DISCARD (.inr .PLAIN) .DETECT none none none 2 7 =
      .error (.valueError "'xx' is not a valid Language") :=
  ⟨rfl,
    (c7_construction_validation "xx" rfl).1 "key" (.inr .DE)
      .NEWLINES_INTERPUNCTION .DISCARD (.inr .PLAIN) .DETECT none none none 2 7⟩

/-- C8: sequential `translate_texts` maps `translate_text` over the input in
input order: when every per-text call succeeds the batch returns exactly the
per-text results in input order (hence a list of the same length); when the
calls on a prefix succeed and the next call raises, the whole batch raises
that first error and no partial result is returned. -/
theorem c8_sequential_batch (cfg : DeeplPro.Translator)
    (tr : String → Nat → Response) :
    (∀ texts : List String,
      (∀ t ∈ texts, (DeeplPro.resultOf cfg tr t).isOk = true) →
      DeeplPro.translateTextsSeq cfg tr texts =
        .ok (texts.map (fun t => DeeplPro.getOk (DeeplPro.resultOf cfg tr t)))) ∧
    (∀ (pre : List String) (t : String) (post : List String) (e : Err),
      (∀ u ∈ pre, (DeeplPro.resultOf cfg tr u).isOk = true) →
      DeeplPro.resultOf cfg tr t = .error e →
      DeeplPro.translateTextsSeq cfg tr (pre ++ t :: post) = .error e) ∧
    (∀ (texts : List String) (l : List Json),
      DeeplPro.translateTextsSeq cfg tr texts = .ok l →
      l.length = texts.length) := by
  refine ⟨DeeplPro.seq_ok_of_all_ok cfg tr, DeeplPro.seq_error_first cfg tr, ?_⟩
  intro texts l h
  rw [(DeeplPro.seq_ok_inv cfg tr texts l h).2, List.length_map]

/-- A transport answering 200 with a body whose first translation text
echoes the input text. -/
def echoTransport : String → Nat → Response := fun t _ =>
  { status := 200,
    body := .obj [("translations", .arr [.obj [("text", .str t)]])] }

/-- The request `_build_request` produces for `retryCfg0` and text `t`. -/
def echoReq (t : String) : Dict :=
  [("auth_key", "key"), ("text", t), ("source_lang", "en"),
   ("target_lang", "de"), ("split_sentences", "1"), ("preserve_formatting", "0"),
   ("tag_handling", "plain"), ("outline_detection", "1")]

theorem echo_resultOf (t : String) :
    DeeplPro.resultOf retryCfg0 echoTransport t = .ok (.str t) := by
  have h := DeeplPro.translateTextFrom_200 retryCfg0 (echoTransport t) t
    (echoReq t) 0 0 rfl rfl
  unfold DeeplPro.resultOf DeeplPro.translateText
  rw [h]
  rfl

/-- Witness for C8 at `retryCfg0`, the echo transport and two texts. -/
theorem c8_sequential_batch_witness :
    (∀ t ∈ (["Hello", "World"] : List String),
      (DeeplPro.resultOf retryCfg0 echoTransport t).isOk = true) ∧
    DeeplPro.translateTextsSeq retryCfg0 echoTransport ["Hello", "World"] =
      .ok ((["Hello", "World"] : List String).map
        (fun t => DeeplPro.getOk (DeeplPro.resultOf retryCfg0 echoTransport t))) ∧
    DeeplPro.translateTextsSeq retryCfg0 echoTransport ["Hello", "World"] =
      .ok [.str "Hello", .str "World"] := by
  have hok : ∀ t ∈ (["Hello", "World"] : List String),
      (DeeplPro.resultOf retryCfg0 echoTransport t).isOk = true := by
    intro t _
    rw [echo_resultOf t]
    rfl
  have happ := (c8_sequential_batch retryCfg0 echoTransport).1 ["Hello", "World"] hok
  refine ⟨hok, happ, ?_⟩
  rw [happ]
  simp [echo_resultOf, DeeplPro.getOk]

/-- C9: in parallel mode the batch result is recombined in the original
input order whatever the worker completion order: for every completion order
(a permutation of the input indices) and every input on which the sequential
batch succeeds, the parallel result is exactly the sequential result, entry
by entry in input order. -/
theorem c9_parallel_matches_sequential (cfg : DeeplPro.Translator)
    (tr : String → Nat → Response) (texts : List String) (order : List Nat)
    (l : List Json)
    (hperm : List.Perm order (List.range texts.length))
    (hseq : DeeplPro.translateTextsSeq cfg tr texts = .ok l) :
    DeeplPro.translateTextsPar cfg tr texts order =
      l.map (fun v => some (Except.ok v)) := by
  obtain ⟨hok, hl⟩ := DeeplPro.seq_ok_inv cfg tr texts l hseq
  have hmem : ∀ i ∈ List.range texts.length, i ∈ order :=
    fun i hi => hperm.mem_iff.mpr hi
  simp only [DeeplPro.translateTextsPar]
  have h1 : (List.range texts.length).map
      (fun i => ((order.map
        (fun j => (j, DeeplPro.workerResult cfg tr texts j))).lookup i)) =
      (List.range texts.length).map
        (fun i => some (DeeplPro.workerResult cfg tr texts i)) :=
    List.map_congr_left (fun i hi =>
      lookup_map_pair (DeeplPro.workerResult cfg tr texts) order i (hmem i hi))
  rw [h1]
  have h2 : (List.range texts.length).map
      (fun i => some (DeeplPro.workerResult cfg tr texts i)) =
      texts.map (fun t => some (DeeplPro.resultOf cfg tr t)) :=
    range_map_getD (fun t => some (DeeplPro.resultOf cfg tr t)) texts
  rw [h2, hl, List.map_map]
  refine List.map_congr_left (fun t ht => ?_)
  simp only [Function.comp]
  rw [DeeplPro.ok_getOk (hok t ht)]

/-- Witness for C9 with two texts and the reversed completion order. -/
theorem c9_parallel_matches_sequential_witness :
    List.Perm [1, 0] (List.range (["Hello", "World"] : List String).length) ∧
    DeeplPro.translateTextsSeq retryCfg0 echoTransport ["Hello", "World"] =
      .ok [.str "Hello", .str "World"] ∧
    DeeplPro.translateTextsPar retryCfg0 echoTransport ["Hello", "World"]
        [1, 0] =
      ([Json.str "Hello", Json.str "World"]).map
        (fun v => some (Except.ok v)) := by
  have hseq : DeeplPro.translateTextsSeq retryCfg0 echoTransport
      ["Hello", "World"] = .ok [.str "Hello", .str "World"] := by
    have hok : ∀ t ∈ (["Hello", "World"] : List String),
        (DeeplPro.resultOf retryCfg0 echoTransport t).isOk = true := by
      intro t _
      rw [echo_resultOf t]
      rfl
    have happ := DeeplPro.seq_ok_of_all_ok retryCfg0 echoTransport
      ["Hello", "World"] hok
    rw [happ]
    simp [echo_resultOf, DeeplPro.getOk]
  exact ⟨by decide, hseq,
    c9_parallel_matches_sequential retryCfg0 echoTransport ["Hello", "World"]
      [1, 0] [.str "Hello", .str "World"] (by decide) hseq⟩

/-- C10: in deepl_pro, `to_enum` is the identity on values already of the
enum type, and a client constructed from wire-format strings for
source_lang, target_lang and tag_handling is the very same Translator value
as the client constructed from the corresponding enum members — hence
`_build_request` produces identical requests for every input text. -/
theorem c10_to_enum_string_equivalence :
    (∀ l : DeeplPro.Language, DeeplPro.toEnumLanguage (.inr l) = .ok l) ∧
    (∀ th : DeeplPro.TagHandling,
      DeeplPro.toEnumTagHandling (.inr th) = .ok th) ∧
    (∀ (s1 s2 s3 auth : String) (l1 l2 : DeeplPro.Language)
       (th : DeeplPro.TagHandling) (sp : DeeplPro.SentenceSplitting)
       (pf : DeeplPro.Formatting) (od : DeeplPro.Outline)
       (a b c : Option (List String)) (rt rl : Nat),
      DeeplPro.Language.fromString s1 = some l1 →
      DeeplPro.Language.fromString s2 = some l2 →
      DeeplPro.TagHandling.fromString s3 = some th →
      DeeplPro.mkTranslator auth (.inl s1) (.inl s2) sp pf (.inl s3) od
          a b c rt rl =
        DeeplPro.mkTranslator auth (.inr l1) (.inr l2) sp pf (.inr th) od
          a b c rt rl ∧
      (∀ (text : String) (cfg1 cfg2 : DeeplPro.Translator),
        DeeplPro.mkTranslator auth (.inl s1) (.inl s2) sp pf (.inl s3) od
            a b c rt rl = .ok cfg1 →
        DeeplPro.mkTranslator auth (.inr l1) (.inr l2) sp pf (.inr th) od
            a b c rt rl = .ok cfg2 →
        DeeplPro.buildRequest cfg1 text = DeeplPro.buildRequest cfg2 text)) := by
  refine ⟨fun l => rfl, fun th => rfl, ?_⟩
  intro s1 s2 s3 auth l1 l2 th sp pf od a b c rt rl h1 h2 h3
  have heq : DeeplPro.mkTranslator auth (.inl s1) (.inl s2) sp pf (.inl s3) od
      a b c rt rl =
      DeeplPro.mkTranslator auth (.inr l1) (.inr l2) sp pf (.inr th) od
        a b c rt rl := by
    simp [DeeplPro.mkTranslator, DeeplPro.toEnumLanguage,
      DeeplPro.toEnumTagHandling, h1, h2, h3]
  refine ⟨heq, ?_⟩
  intro text cfg1 cfg2 hc1 hc2
  rw [heq, hc2] at hc1
  injection hc1 with h
  rw [h]

/-- Witness for C10 at the strings "en", "de", "xml". -/
theorem c10_to_enum_string_equivalence_witness :
    DeeplPro.Language.fromString "en" = some .EN ∧
    DeeplPro.Language.fromString "de" = some .DE ∧
    DeeplPro.TagHandling.fromString "xml" = some .XML ∧
    DeeplPro.mkTranslator "key" (.inl "en") (.inl "de")
        .NEWLINES_INTERPUNCTION .DISCARD (.inl "xml") .DETECT none none none
        2 7 =
      DeeplPro.mkTranslator "key" (.inr .EN) (.inr .DE)
        .NEWLINES_INTERPUNCTION .DISCARD (.inr .XML) .DETECT none none none
        2 7 :=
  ⟨rfl, rfl, rfl,
    (c10_to_enum_string_equivalence.2.2 "en" "de" "xml" "key" .EN .DE .XML
      .NEWLINES_INTERPUNCTION .DISCARD .DETECT none none none 2 7
      rfl rfl rfl).1⟩
